import Mathlib

/-
Shallow embedding of the per-segment query execution engine of the
repository: the `Scorer` trait with its bulk-iteration default methods
(src/query/scorer.rs), the `TwoPhase` protocol (src/query/twophase.rs),
`BooleanWeight` (src/query/boolean_query/boolean_weight.rs) and
`PhraseWeight` (src/query/phrase_query/phrase_weight.rs), together with
proofs about the behaviour documented in the specification.

External collaborators (postings provider, field-norm reader, BM25
similarity) are abstracted into an environment record, exactly as the
specification treats them (interfaces only).  Combinator scorers whose
source files are not part of the provided sources (EmptyScorer, Union,
intersect_scorers, Exclude, RequiredOptionalScorer, PhraseScorer,
the score combiners) are modelled from the specification where noted.
-/

namespace TantivyQE

/-- Document identifier; `DocId = u32` in the source, modelled as `Nat`. -/
abbrev DocId := Nat

/-- Relevance score; `Score = f32` in the source, modelled as a rational. -/
abbrev Score := Rat

/-- Term identifier; terms are opaque keys into the postings provider. -/
abbrev Term := Nat

/-- Sentinel marking iterator exhaustion; `TERMINATED = u32::MAX`. -/
def TERMINATED : DocId := 4294967295

/-! ### The `Scorer` trait interface and its default bulk-iteration methods

`MScorer` models one scorer as seen through the `DocSet`/`Scorer` trait
interface of scorer.rs: the current position followed by the upcoming
positions as `(doc, score)` pairs (`doc()` returns `TERMINATED` once the
list is empty), together with a record of what `two_phase()` does for this
scorer.  `twoPhase = none` means the scorer does not override the default
`Scorer::two_phase` (whose body, scorer.rs lines 78-81, executes
`todo!(...)` before an unreachable `None`); `some none` models an override
returning `None`; `some (some m)` models an override returning a companion
whose `matches()` is the predicate `m` of the current document. -/
structure MScorer where
  positions : List (DocId × Score)
  twoPhase : Option (Option (DocId → Bool))

/-- Current document of the cursor; `TERMINATED` when exhausted. -/
def MScorer.doc (s : MScorer) : DocId :=
  match s.positions with
  | [] => TERMINATED
  | (d, _) :: _ => d

/-- Score of the current position (`Scorer::score`). -/
def MScorer.scoreNow (s : MScorer) : Score :=
  match s.positions with
  | [] => 0
  | (_, sc) :: _ => sc

/-- Observable outcome of one of the bulk-iteration helpers: the
`(doc, score)` pairs passed to the callback, in order, and whether the call
ended in a panic (a `todo!` in the source). -/
structure IterOutcome where
  calls : List (DocId × Score)
  panicked : Bool

/-- The loop of `Scorer::for_each` when a two-phase companion is present
(scorer.rs lines 25-31): while `doc != TERMINATED`, invoke the callback
with `(doc, score)` when `matches()` holds, then advance. -/
def forEachLoopTwoPhase (m : DocId → Bool) : List (DocId × Score) → List (DocId × Score)
  | [] => []
  | (d, sc) :: rest =>
    if d = TERMINATED then []
    else (if m d then [(d, sc)] else []) ++ forEachLoopTwoPhase m rest

/-- The loop of `Scorer::for_each` when `two_phase()` returned `None`
(scorer.rs lines 34-38): every position is passed to the callback. -/
def forEachLoopAll : List (DocId × Score) → List (DocId × Score)
  | [] => []
  | (d, sc) :: rest =>
    if d = TERMINATED then [] else (d, sc) :: forEachLoopAll rest

/-- Shallow embedding of `Scorer::for_each` (scorer.rs lines 22-41).
The method first calls `self.two_phase()`: on a scorer that does not
override the default, that call itself panics (`todo!`, scorer.rs line 79)
before any iteration.  With a companion present, the drain loop filters by
`matches()` and returns normally.  With an override returning `None`, the
drain loop passes every position to the callback and then executes
`todo!("two_phase false should not occur ...")` (scorer.rs line 39), i.e.
it panics after draining. -/
def MScorer.for_each (s : MScorer) : IterOutcome :=
  match s.twoPhase with
  | none => ⟨[], true⟩
  | some (some m) => ⟨forEachLoopTwoPhase m s.positions, false⟩
  | some none => ⟨forEachLoopAll s.positions, true⟩

/-- The loop of `Scorer::for_each_pruning` (scorer.rs lines 58-65): the
callback fires when `score > threshold` and returns the new threshold. -/
def forEachPruningLoop (cb : DocId → Score → Score) (threshold : Score) :
    List (DocId × Score) → List (DocId × Score)
  | [] => []
  | (d, sc) :: rest =>
    if d = TERMINATED then []
    else if threshold < sc then (d, sc) :: forEachPruningLoop cb (cb d sc) rest
    else forEachPruningLoop cb threshold rest

/-- Shallow embedding of `Scorer::for_each_pruning` (scorer.rs lines
53-67): the default body never consults `two_phase()`, and after the drain
loop it unconditionally executes
`todo!("FIXME: Add two phase as in Scorer.for_each()")` (line 66), so the
call always ends in a panic. -/
def MScorer.for_each_pruning (s : MScorer) (threshold : Score)
    (cb : DocId → Score → Score) : IterOutcome :=
  ⟨forEachPruningLoop cb threshold s.positions, true⟩

/-- Result of a call to `Scorer::two_phase`: either the call panics, or it
returns an optional companion (modelled by its `matches()` predicate). -/
inductive TwoPhaseResult where
  | panicked : TwoPhaseResult
  | value : Option (DocId → Bool) → TwoPhaseResult

/-- Whether the `two_phase()` call panicked. -/
def TwoPhaseResult.panics : TwoPhaseResult → Bool
  | .panicked => true
  | .value _ => false

/-- Shallow embedding of the `Scorer::two_phase` dispatch: a scorer that
does not override the method runs the default body, which executes
`todo!("Scorer.two_phase() should be overriden ...")` and panics before
reaching its trailing `None` (scorer.rs lines 78-81). -/
def MScorer.two_phase (s : MScorer) : TwoPhaseResult :=
  match s.twoPhase with
  | none => .panicked
  | some tp => .value tp

/-! ### Postings, environment, explanations and errors -/

/-- Positional postings of one term: for each document, in increasing
order, the sorted list of token positions of the term within the document.
External collaborator (spec section 6, postings provider). -/
abbrev Postings := List (DocId × List Nat)

/-- Occur tag on a boolean clause (the `Occur` enum). -/
inductive Occur where
  | must
  | should
  | mustNot
  deriving DecidableEq

/-- Score combiner strategy selected by the `scoring_enabled` flag
(`SumWithCoordsCombiner` vs `DoNothingCombiner`, boolean_weight.rs lines
145-149). -/
inductive CombKind where
  | doNothing
  | sumWithCoords
  deriving DecidableEq

/-- Score explanation tree (`Explanation::new` plus `add_detail`). -/
inductive Explanation where
  | node (desc : String) (value : Score) (details : List Explanation)

/-- Errors surfaced by `Weight::scorer` / `Weight::explain`:
`doesNotMatch doc` models the distinguished `does_not_match(doc)`
condition and `dataErr` models an underlying data/IO error. -/
inductive Err where
  | doesNotMatch (doc : DocId)
  | dataErr (code : Nat)
  deriving DecidableEq

/-- Model of the per-segment environment a weight consumes: the
`SegmentReader` postings accessors (`read_postings` respecting deletes and
`read_postings_no_deletes`; a lookup returns `none` when the term has no
postings in the segment), the field-norm reader, and the similarity
function backing `BM25Weight` (`baseSim fid freq` is the unboosted
similarity score, `simExplain w fid freq` its explain-decomposition for a
similarity weight with multiplier `w`).  All are external collaborators
(spec sections 1 and 6). -/
structure Env where
  hasDeletes : Bool
  readPostings : Term → Option Postings
  readPostingsNoDeletes : Term → Option Postings
  fieldnormId : DocId → Nat
  baseSim : Nat → Nat → Score
  simExplain : Score → Nat → Nat → Explanation

/-! ### Scorer trees

The scorers a weight builds form a tree of combinators.  The sources of
EmptyScorer, Union, Intersection, Exclude, RequiredOptionalScorer and
PhraseScorer are not part of the provided sources; their constructors and
their document/score semantics below are modelled from the spec
(sections 4.4-4.8, 4.10 and 8). -/
inductive ScorerTree where
  | empty
  | leaf (positions : List (DocId × Score))
  | union (comb : CombKind) (subs : List ScorerTree)
  | intersection (subs : List ScorerTree)
  | reqOpt (comb : CombKind) (req : ScorerTree) (opt : ScorerTree)
  | exclude (pos : ScorerTree) (excl : ScorerTree)
  | phraseScorer (termPostings : List (Nat × Postings)) (simWeight : Score) (scoreNeeded : Bool)

/-- Whether the root of the tree is an `Exclude` combinator. -/
def ScorerTree.isExclude : ScorerTree → Bool
  | .exclude _ _ => true
  | _ => false

/-- Insert into a sorted deduplicated list of document ids. -/
def sortedInsert (x : Nat) : List Nat → List Nat
  | [] => [x]
  | y :: ys =>
    if x < y then x :: y :: ys
    else if x = y then y :: ys
    else y :: sortedInsert x ys

/-- Sort a list of document ids and remove duplicates. -/
def sortDedup : List Nat → List Nat
  | [] => []
  | x :: xs => sortedInsert x (sortDedup xs)

/-- Modelled from the spec (section 4.10): the positions of a term inside
document `d`, read off its postings. -/
def positionsAt (post : Postings) (d : DocId) : List Nat :=
  match post.find? (fun p => p.1 == d) with
  | some p => p.2
  | none => []

/-- Modelled from the spec (section 4.10): the documents of the phrase
scorer's approximation, i.e. the documents that contain every term of the
phrase (the intersection of the per-term DocSets). -/
def interPostingsDocs : List (Nat × Postings) → List DocId
  | [] => []
  | [op] => op.2.map (fun p => p.1)
  | op :: rest =>
    (op.2.map (fun p => p.1)).filter (fun d => (interPostingsDocs rest).contains d)

/-- Modelled from the spec (section 4.10): the offset-adjusted positions at
which the full phrase matches within document `d` — values `p` such that
every `(offset, postings)` entry of the phrase records a raw position
`p + offset` for `d`, computed from the offset-adjusted positions of the
first entry. -/
def phraseMatchPositions (tps : List (Nat × Postings)) (d : DocId) : List Nat :=
  match tps with
  | [] => []
  | (off0, p0) :: rest =>
    ((positionsAt p0 d).filterMap
        (fun raw => if off0 ≤ raw then some (raw - off0) else none)).filter
      (fun p => rest.all (fun op => (positionsAt op.2 d).contains (p + op.1)))

/-- Modelled from the spec (section 4.10): the phrase-occurrence count of
document `d` — the number of positions where the full sequence matches. -/
def phraseCount (tps : List (Nat × Postings)) (d : DocId) : Nat :=
  (phraseMatchPositions tps d).length

mutual
/-- Modelled from the spec (sections 4.4-4.7, 4.10 and 8): the document
sequence a scorer emits — union is the sorted deduplicated merge of its
inputs, intersection the common documents, exclude the difference,
required-optional exactly the required side, and the phrase scorer its
approximation (the documents containing every term of the phrase). -/
def ScorerTree.docs : ScorerTree → List DocId
  | .empty => []
  | .leaf pos => pos.map (fun p => p.1)
  | .union _ subs => sortDedup (ScorerTree.docsConcat subs)
  | .intersection subs => ScorerTree.docsInter subs
  | .reqOpt _ r _ => r.docs
  | .exclude p e => p.docs.filter (fun d => !(e.docs.contains d))
  | .phraseScorer tps _ _ => interPostingsDocs tps

/-- Concatenation of the document sequences of a list of scorers. -/
def ScorerTree.docsConcat : List ScorerTree → List DocId
  | [] => []
  | s :: rest => s.docs ++ ScorerTree.docsConcat rest

/-- Documents common to all scorers of a non-empty list. -/
def ScorerTree.docsInter : List ScorerTree → List DocId
  | [] => []
  | [s] => s.docs
  | s :: rest => s.docs.filter (fun d => (ScorerTree.docsInter rest).contains d)
end

/-- `DocSet::seek`: the first emitted document that is `≥ target`, or
`TERMINATED` when the scorer exhausts first (spec section 4.1). -/
def ScorerTree.seek (s : ScorerTree) (target : DocId) : DocId :=
  match s.docs.find? (fun d => decide (target ≤ d)) with
  | some d => d
  | none => TERMINATED

/-- Modelled from the spec (section 4.8): `DoNothingCombiner` always yields
zero; `SumWithCoordsCombiner` sums the contributing sub-scores and applies
the coordination factor (number of matching sub-clauses over the total
number of sub-clauses). -/
def combineScores (comb : CombKind) (scores : List Score) (total : Nat) : Score :=
  match comb with
  | .doNothing => 0
  | .sumWithCoords =>
    (scores.foldl (fun a b => a + b) 0) * (scores.length : Score) / (total : Score)

mutual
/-- Modelled from the spec (sections 4.4-4.8 and 4.10): the score a scorer
produces at document `d` — a union combines the scores of the sub-scorers
matching `d`, an intersection sums all member scores, exclude passes the
positive score through, required-optional adds the optional score exactly
when the optional side matches, and the phrase scorer applies its
similarity weight to the field norm and phrase-occurrence count. -/
def ScorerTree.scoreAt (env : Env) : ScorerTree → DocId → Score
  | .empty, _ => 0
  | .leaf pos, d =>
    match pos.find? (fun p => p.1 == d) with
    | some p => p.2
    | none => 0
  | .union comb subs, d =>
    combineScores comb (ScorerTree.matchingScores env subs d) subs.length
  | .intersection subs, d => ScorerTree.sumScores env subs d
  | .reqOpt _ r o, d =>
    if o.docs.contains d then r.scoreAt env d + o.scoreAt env d else r.scoreAt env d
  | .exclude p _, d => p.scoreAt env d
  | .phraseScorer tps sw _, d =>
    sw * env.baseSim (env.fieldnormId d) (phraseCount tps d)

/-- Scores of the sub-scorers whose document sequence contains `d`. -/
def ScorerTree.matchingScores (env : Env) : List ScorerTree → DocId → List Score
  | [], _ => []
  | s :: rest, d =>
    (if s.docs.contains d then [s.scoreAt env d] else []) ++
      ScorerTree.matchingScores env rest d

/-- Sum of the scores of all scorers of the list at `d`. -/
def ScorerTree.sumScores (env : Env) : List ScorerTree → DocId → Score
  | [], _ => 0
  | s :: rest, d => s.scoreAt env d + ScorerTree.sumScores env rest d
end

/-- Phrase-occurrence count exposed by `PhraseScorer::phrase_count` at the
current document (phrase_weight.rs line 111). -/
def ScorerTree.phraseCountAt : ScorerTree → DocId → Nat
  | .phraseScorer tps _ _, d => phraseCount tps d
  | _, _ => 0

/-! ### `scorer_union`, `intersect_scorers` and `complex_scorer` -/

/-- Shallow embedding of `scorer_union` (boolean_weight.rs lines 18-51):
`none` models the `assert!(!scorers.is_empty())` panic; a single sub-scorer
is returned unchanged (lines 25-27); otherwise a `Union` over the scorers
is built with the given combiner (line 49). -/
def scorer_union (comb : CombKind) (scorers : List ScorerTree) : Option ScorerTree :=
  match scorers with
  | [] => none
  | [s] => some s
  | ss => some (.union comb ss)

/-- Modelled from the spec (section 4.9 step 3): `intersect_scorers` (whose
source file is not part of the provided sources) builds the Intersect
combinator over the Must bucket. -/
def intersect_scorers (scorers : List ScorerTree) : ScorerTree :=
  .intersection scorers

/-- The union `scorer_union` yields on a non-empty bucket. -/
def unionNE (comb : CombKind) (scorers : List ScorerTree) : ScorerTree :=
  (scorer_union comb scorers).getD .empty

/-- The Exclude wrap of boolean_weight.rs lines 119-126: wrap `t` in
`Exclude` with the union of the MustNot bucket when that bucket is
non-empty. -/
def excludeWrap (comb : CombKind) (mustNotBucket : List ScorerTree)
    (t : ScorerTree) : ScorerTree :=
  if mustNotBucket.isEmpty then t else .exclude t (unionNE comb mustNotBucket)

/-- The combiner `BooleanWeight::scorer` selects from `scoring_enabled`
(boolean_weight.rs lines 145-149). -/
def chosenComb (scoringEnabled : Bool) : CombKind :=
  if scoringEnabled then .sumWithCoords else .doNothing

/-- A sub-`Weight` trait object (`Box<dyn Weight>`), modelled by the two
methods the boolean weight calls on it: `scorer(reader, boost)` and
`explain(reader, doc)`. -/
structure PrimWeight where
  scorerFn : Env → Score → Except Err ScorerTree
  explainFn : Env → DocId → Except Err Explanation

/-- The bucket of `per_occur_scorers` for one Occur value
(boolean_weight.rs lines 66-80): the sub-scorers of the clauses tagged
`occ`, in clause order. -/
def occBucket (l : List (Occur × ScorerTree)) (occ : Occur) : List ScorerTree :=
  (l.filter (fun c => c.1 == occ)).map (fun c => c.2)

/-- Pure tail of `BooleanWeight::complex_scorer` (boolean_weight.rs lines
89-127), applied to the per-clause sub-scorers: build the Should union, the
MustNot union and the Must intersection from the non-empty buckets, combine
the Must and Should sides — `RequiredOptionalScorer` when both are present
and scoring is enabled, the Must side alone when scoring is disabled — and
wrap the positive scorer in `Exclude` when the MustNot bucket is non-empty.
The `(None, None)` arm is an early `return Ok(EmptyScorer)` in the source
(lines 114-116), so it bypasses the Exclude wrap. -/
def complexAssemble (comb : CombKind) (scoringEnabled : Bool)
    (l : List (Occur × ScorerTree)) : ScorerTree :=
  match (if (occBucket l .should).isEmpty then none
         else scorer_union comb (occBucket l .should)),
        (if (occBucket l .must).isEmpty then none
         else some (intersect_scorers (occBucket l .must))) with
  | some shouldScorer, some mustScorer =>
    excludeWrap comb (occBucket l .mustNot)
      (if scoringEnabled then .reqOpt comb mustScorer shouldScorer else mustScorer)
  | none, some mustScorer => excludeWrap comb (occBucket l .mustNot) mustScorer
  | some shouldScorer, none => excludeWrap comb (occBucket l .mustNot) shouldScorer
  | none, none => .empty

/-! ### The weights -/

/-- The weights whose sources are provided: `BooleanWeight` over a list of
`(Occur, Box<dyn Weight>)` clauses with its `scoring_enabled` flag, and
`PhraseWeight` over `(position-offset, term)` pairs with its `BM25Weight`
(modelled by its score multiplier) and `score_needed` flag; `prim` is an
externally supplied weight. -/
inductive Weight where
  | prim (p : PrimWeight)
  | phrase (terms : List (Nat × Term)) (simWeight : Score) (scoreNeeded : Bool)
  | boolean (clauses : List (Occur × PrimWeight)) (scoringEnabled : Bool)

/-- Shallow embedding of `PhraseWeight::phrase_scorer` (phrase_weight.rs
lines 42-86): boost the similarity weight, then collect each term's
positional postings — through `read_postings` when the segment has deletes
and `read_postings_no_deletes` otherwise — returning `None` as soon as some
term has no postings in the segment.  The field-norm reader fetch is part
of the environment. -/
def collectPostings (read : Term → Option Postings) :
    List (Nat × Term) → Option (List (Nat × Postings))
  | [] => some []
  | (off, t) :: rest =>
    match read t with
    | some p => (collectPostings read rest).map (fun l => (off, p) :: l)
    | none => none

/-- The result of `PhraseWeight::phrase_scorer`: `Ok(None)` when some term
has no postings, otherwise `Ok(Some(PhraseScorer::new(...)))` with the
boosted similarity weight. -/
def phraseScorerFn (terms : List (Nat × Term)) (simWeight : Score)
    (scoreNeeded : Bool) (env : Env) (boost : Score) :
    Except Err (Option ScorerTree) :=
  if env.hasDeletes then
    match collectPostings env.readPostings terms with
    | some tps => .ok (some (.phraseScorer tps (simWeight * boost) scoreNeeded))
    | none => .ok none
  else
    match collectPostings env.readPostingsNoDeletes terms with
    | some tps => .ok (some (.phraseScorer tps (simWeight * boost) scoreNeeded))
    | none => .ok none

/-- The loop of `BooleanWeight::per_occur_scorers` (boolean_weight.rs lines
66-80) before grouping: build each clause's sub-scorer in clause order,
propagating the first construction error. -/
def subScorersList (env : Env) (boost : Score) :
    List (Occur × PrimWeight) → Except Err (List (Occur × ScorerTree))
  | [] => .ok []
  | (occ, p) :: rest =>
    match p.scorerFn env boost with
    | .ok s =>
      match subScorersList env boost rest with
      | .ok l => .ok ((occ, s) :: l)
      | .error e => .error e
    | .error e => .error e

/-- Shallow embedding of `Weight::scorer` for the provided weights:
`BooleanWeight::scorer` (boolean_weight.rs lines 131-150) — zero clauses
give `EmptyScorer`, a single `MustNot` clause gives `EmptyScorer`, a single
clause of any other Occur returns the sub-weight's scorer unchanged, and
otherwise `complex_scorer` runs with the combiner selected by
`scoring_enabled` — and `PhraseWeight::scorer` (phrase_weight.rs lines
89-98), which wraps a missing phrase scorer into `EmptyScorer`. -/
def Weight.scorer : Weight → Env → Score → Except Err ScorerTree
  | .prim p, env, boost => p.scorerFn env boost
  | .phrase terms sw sn, env, boost =>
    match phraseScorerFn terms sw sn env boost with
    | .ok (some s) => .ok s
    | .ok none => .ok .empty
    | .error e => .error e
  | .boolean clauses se, env, boost =>
    match clauses with
    | [] => .ok .empty
    | [(occ, p)] =>
      if occ = Occur.mustNot then .ok .empty else p.scorerFn env boost
    | _ =>
      match subScorersList env boost clauses with
      | .ok l => .ok (complexAssemble (chosenComb se) se l)
      | .error e => .error e

/-- Shallow embedding of `is_positive_occur` (boolean_weight.rs lines
173-178). -/
def is_positive_occur (occ : Occur) : Bool :=
  match occ with
  | .must | .should => true
  | .mustNot => false

/-- Description string of the fixed explanation returned when scoring is
disabled (boolean_weight.rs line 158). -/
def descNoScoring : String := "BooleanQuery with no scoring"

/-- Description string of the itemized boolean explanation
(boolean_weight.rs line 161). -/
def descBooleanSum : String := "BooleanClause. Sum of ..."

/-- Description string of the phrase explanation (phrase_weight.rs line
112). -/
def descPhraseScorer : String := "Phrase Scorer"

/-- The itemization loop of `BooleanWeight::explain` (boolean_weight.rs
lines 162-168): for each positive clause, ask the sub-weight for its
explanation and keep it when it succeeds; a failing sub-explanation is
silently skipped (`if let Ok(child_explanation) = ...`). -/
def explainDetails (env : Env) (d : DocId) :
    List (Occur × PrimWeight) → List Explanation
  | [] => []
  | (occ, p) :: rest =>
    (if is_positive_occur occ then
      match p.explainFn env d with
      | .ok e => [e]
      | .error _ => []
    else []) ++ explainDetails env d rest

/-- Tail of `PhraseWeight::explain` once the phrase scorer exists
(phrase_weight.rs lines 106-114): fail with `does_not_match` unless the
scorer seeks exactly onto `doc`, otherwise report the scorer's score with
the similarity function's own explanation as detail. -/
def phraseExplainTail (env : Env) (simWeight : Score) (d : DocId)
    (ps : ScorerTree) : Except Err Explanation :=
  if ScorerTree.seek ps d ≠ d then .error (.doesNotMatch d)
  else
    .ok (.node descPhraseScorer (ScorerTree.scoreAt env ps d)
      [env.simExplain simWeight (env.fieldnormId d) (ps.phraseCountAt d)])

/-- Shallow embedding of `Weight::explain` for the provided weights.
`BooleanWeight::explain` (boolean_weight.rs lines 152-170) builds its
scorer with boost `1.0f32`, fails with `does_not_match` unless the scorer
seeks exactly onto `doc`, returns a fixed non-decomposed explanation when
scoring is disabled, and otherwise an explanation valued at the scorer's
score whose details are the successful sub-explanations of the positive
clauses.  `PhraseWeight::explain` (phrase_weight.rs lines 100-115) builds
the phrase scorer with boost `1.0f32`, fails with `does_not_match` when it
cannot be built or does not land on `doc`, and otherwise reports the score
with the similarity explanation as detail. -/
def Weight.explain : Weight → Env → DocId → Except Err Explanation
  | .prim p, env, d => p.explainFn env d
  | .phrase terms sw sn, env, d =>
    match phraseScorerFn terms sw sn env 1 with
    | .error e => .error e
    | .ok none => .error (.doesNotMatch d)
    | .ok (some ps) => phraseExplainTail env sw d ps
  | .boolean clauses se, env, d =>
    match Weight.scorer (.boolean clauses se) env 1 with
    | .error e => .error e
    | .ok s =>
      if ScorerTree.seek s d ≠ d then .error (.doesNotMatch d)
      else if !se then .ok (.node descNoScoring 1 [])
      else
        .ok (.node descBooleanSum (ScorerTree.scoreAt env s d)
          (explainDetails env d clauses))

/-- Generalization of `Weight.explain` in which the internal scorer is
built with boost `b` in place of the hardcoded `1.0f32`; used only to state
that `explain` fixes the internal boost to one. -/
def Weight.explainB (b : Score) : Weight → Env → DocId → Except Err Explanation
  | .prim p, env, d => p.explainFn env d
  | .phrase terms sw sn, env, d =>
    match phraseScorerFn terms sw sn env b with
    | .error e => .error e
    | .ok none => .error (.doesNotMatch d)
    | .ok (some ps) => phraseExplainTail env sw d ps
  | .boolean clauses se, env, d =>
    match Weight.scorer (.boolean clauses se) env b with
    | .error e => .error e
    | .ok s =>
      if ScorerTree.seek s d ≠ d then .error (.doesNotMatch d)
      else if !se then .ok (.node descNoScoring 1 [])
      else
        .ok (.node descBooleanSum (ScorerTree.scoreAt env s d)
          (explainDetails env d clauses))

/-! ### Concrete objects used by witnesses and counterexamples -/

/-- Description string used by the default similarity explanation of the
concrete environments below. -/
def descSim : String := "similarity"

/-- An environment with no deletes, no postings, and a trivial similarity
function. -/
def envA : Env :=
  ⟨false, fun _ => none, fun _ => none, fun _ => 0, fun _ _ => 0,
    fun _ _ _ => Explanation.node descSim 0 []⟩

/-- An environment holding positional postings for the two-term phrase
`[term 0, term 1]`: document 1 contains the phrase at position 0 and
document 2 contains both terms without adjacency. -/
def envPhrase : Env :=
  ⟨false, fun _ => none,
    fun t =>
      if t = 0 then some [(1, [0]), (2, [0])]
      else if t = 1 then some [(1, [1]), (2, [5])]
      else none,
    fun _ => 0, fun _ _ => 1,
    fun _ _ _ => Explanation.node descSim 0 []⟩

/-- A sub-weight whose scorer emits document 2 with score 1 and whose
explanation fails with a data error. -/
def primLeaf2 : PrimWeight :=
  ⟨fun _ _ => .ok (.leaf [(2, 1)]), fun _ _ => .error (.dataErr 1)⟩

/-- A sub-weight whose scorer emits document 0 with score 2 but whose
explanation fails with an underlying data error. -/
def primFailExplain : PrimWeight :=
  ⟨fun _ _ => .ok (.leaf [(0, 2)]), fun _ _ => .error (.dataErr 7)⟩

/-- A sub-weight whose scorer construction itself fails with a data
error. -/
def primErrScorer : PrimWeight :=
  ⟨fun _ _ => .error (.dataErr 3), fun _ _ => .error (.dataErr 3)⟩

end TantivyQE

namespace TantivyQE

/-! ### Helper lemmas -/

/-- Unfolding of `Weight.explain` on a boolean weight. -/
lemma explain_boolean_eq (clauses : List (Occur × PrimWeight)) (se : Bool)
    (env : Env) (d : DocId) :
    Weight.explain (.boolean clauses se) env d
      = (match Weight.scorer (.boolean clauses se) env 1 with
         | .error e => .error e
         | .ok s =>
           if ScorerTree.seek s d ≠ d then .error (.doesNotMatch d)
           else if !se then .ok (.node descNoScoring 1 [])
           else .ok (.node descBooleanSum (ScorerTree.scoreAt env s d)
             (explainDetails env d clauses))) := rfl

/-- Unfolding of `Weight.explain` on a phrase weight. -/
lemma explain_phrase_eq (terms : List (Nat × Term)) (sw : Score) (sn : Bool)
    (env : Env) (d : DocId) :
    Weight.explain (.phrase terms sw sn) env d
      = (match phraseScorerFn terms sw sn env 1 with
         | .error e => .error e
         | .ok none => .error (.doesNotMatch d)
         | .ok (some ps) => phraseExplainTail env sw d ps) := rfl

/-- Unfolding of `Weight.scorer` on a phrase weight. -/
lemma scorer_phrase_eq (terms : List (Nat × Term)) (sw : Score) (sn : Bool)
    (env : Env) (b : Score) :
    Weight.scorer (.phrase terms sw sn) env b
      = (match phraseScorerFn terms sw sn env b with
         | .ok (some s) => .ok s
         | .ok none => .ok .empty
         | .error e => .error e) := rfl

/-- Unfolding of `Weight.scorer` on a boolean weight with at least two
clauses: it runs `complex_scorer`. -/
lemma scorer_boolean_complex_eq (c1 c2 : Occur × PrimWeight)
    (rest : List (Occur × PrimWeight)) (se : Bool) (env : Env) (b : Score) :
    Weight.scorer (.boolean (c1 :: c2 :: rest) se) env b
      = (match subScorersList env b (c1 :: c2 :: rest) with
         | .ok l => .ok (complexAssemble (chosenComb se) se l)
         | .error e => .error e) := rfl

/-- `scorer_union` on a non-empty list succeeds with the union it builds. -/
lemma scorer_union_cons (comb : CombKind) (s : ScorerTree) (ss : List ScorerTree) :
    scorer_union comb (s :: ss) = some (unionNE comb (s :: ss)) := by
  cases ss <;> rfl

/-- If some phrase term has no postings, the postings collection of
`phrase_scorer` fails. -/
lemma collectPostings_none_of_missing (read : Term → Option Postings) :
    ∀ (terms : List (Nat × Term)) (off : Nat) (t : Term),
      (off, t) ∈ terms → read t = none → collectPostings read terms = none := by
  intro terms
  induction terms with
  | nil => exact fun off t h _ => absurd h (List.not_mem_nil _)
  | cons hd tl ih =>
    obtain ⟨o2, t2⟩ := hd
    intro off t hmem hread
    rcases List.mem_cons.mp hmem with heq | hmem2
    · have ht : t2 = t := (congrArg Prod.snd heq).symm
      show (match read t2 with
        | some p => (collectPostings read tl).map (fun l => (o2, p) :: l)
        | none => none) = none
      rw [ht, hread]
    · show (match read t2 with
        | some p => (collectPostings read tl).map (fun l => (o2, p) :: l)
        | none => none) = none
      rw [ih off t hmem2 hread]
      cases read t2 <;> rfl

/-- `phrase_scorer` yields `Ok(None)` when some term of the phrase has no
postings in the segment. -/
lemma phraseScorerFn_missing_term (terms : List (Nat × Term)) (sw : Score)
    (sn : Bool) (env : Env) (b : Score) (off : Nat) (t : Term)
    (hmem : (off, t) ∈ terms)
    (hread : (if env.hasDeletes then env.readPostings
              else env.readPostingsNoDeletes) t = none) :
    phraseScorerFn terms sw sn env b = .ok none := by
  unfold phraseScorerFn
  cases hdel : env.hasDeletes
  · rw [hdel] at hread
    simp only [Bool.false_eq_true, if_false] at hread ⊢
    rw [collectPostings_none_of_missing env.readPostingsNoDeletes terms off t hmem hread]
  · rw [hdel] at hread
    simp only [if_true] at hread ⊢
    rw [collectPostings_none_of_missing env.readPostings terms off t hmem hread]

/-- `phrase_scorer` never returns a construction error: the postings
lookups it performs are total (they return `None` for a term without
postings rather than failing). -/
lemma phraseScorerFn_isOk (terms : List (Nat × Term)) (sw : Score) (sn : Bool)
    (env : Env) (b : Score) :
    ∃ po, phraseScorerFn terms sw sn env b = .ok po := by
  unfold phraseScorerFn
  cases hdel : env.hasDeletes
  · simp only [Bool.false_eq_true, if_false]
    cases collectPostings env.readPostingsNoDeletes terms
    · exact ⟨none, rfl⟩
    · exact ⟨_, rfl⟩
  · simp only [if_true]
    cases collectPostings env.readPostings terms
    · exact ⟨none, rfl⟩
    · exact ⟨_, rfl⟩

end TantivyQE

namespace TantivyQE

/-! ### Claim theorems -/

/-- C1: the claim fails on the code.  `Scorer::for_each` terminates
normally only when a two-phase companion is present (first the companion
case, scorer.rs lines 23-31, which drains, filters by `matches()` and
returns).  On a scorer whose `two_phase()` returns `None` the callback is
invoked for every position but the drain loop is followed by the
unconditional `todo!` at scorer.rs line 39, so the call panics instead of
terminating normally; and on a scorer that does not override `two_phase()`
the call panics inside the default `two_phase()` before any callback runs. -/
theorem c1_for_each_panics_without_companion :
    MScorer.for_each ⟨[(0, 1)], some (some (fun _ => true))⟩ = ⟨[(0, 1)], false⟩ ∧
    MScorer.for_each ⟨[(0, 1)], some none⟩ = ⟨[(0, 1)], true⟩ ∧
    MScorer.for_each ⟨[(0, 1)], none⟩ = ⟨[], true⟩ :=
  ⟨rfl, rfl, rfl⟩

/-- C2: the claim fails on the code.  `Scorer::for_each_pruning` never
consults `two_phase()`: a position whose companion `matches()` is false is
still passed to the callback (first conjunct; contrast with `for_each` on
the same scorer, which honors the companion and emits nothing), and the
unconditional `todo!` at scorer.rs line 66 panics after the drain loop, so
the call never terminates normally. -/
theorem c2_for_each_pruning_ignores_two_phase_and_panics :
    MScorer.for_each_pruning ⟨[(0, 5)], some (some (fun _ => false))⟩ 0 (fun _ sc => sc)
      = ⟨[(0, 5)], true⟩ ∧
    MScorer.for_each ⟨[(0, 5)], some (some (fun _ => false))⟩ = ⟨[], false⟩ :=
  ⟨rfl, rfl⟩

/-- C3: the claim fails on the code.  The default implementation of
`Scorer::two_phase` (scorer.rs lines 78-81) does not return `None`: its
body executes `todo!(...)` and panics before the trailing `None`, so a
scorer that does not override the method never gets a well-defined answer,
and `for_each` on such a scorer panics before invoking any callback. -/
theorem c3_two_phase_default_panics :
    (MScorer.two_phase ⟨[(3, 2)], none⟩).panics = true ∧
    MScorer.for_each ⟨[(3, 2)], none⟩ = ⟨[], true⟩ :=
  ⟨rfl, rfl⟩

/-- C4: `BooleanWeight::scorer` special cases (boolean_weight.rs lines
131-150): zero clauses give the empty scorer, whose document sequence is
empty and which is immediately `TERMINATED` under seek; a single `MustNot`
clause gives the empty scorer; and a single clause of any other Occur
returns the sub-weight's scorer unchanged, so its result set and scores
are those of the sub-clause evaluated alone. -/
theorem c4_boolean_scorer_special_cases :
    (∀ (se : Bool) (env : Env) (b : Score),
      Weight.scorer (.boolean [] se) env b = .ok .empty) ∧
    (∀ (p : PrimWeight) (se : Bool) (env : Env) (b : Score),
      Weight.scorer (.boolean [(Occur.mustNot, p)] se) env b = .ok .empty) ∧
    (∀ (occ : Occur) (p : PrimWeight) (se : Bool) (env : Env) (b : Score),
      occ ≠ Occur.mustNot →
      Weight.scorer (.boolean [(occ, p)] se) env b = Weight.scorer (.prim p) env b) ∧
    ScorerTree.docs .empty = [] ∧
    (∀ d : DocId, ScorerTree.seek .empty d = TERMINATED) := by
  refine ⟨fun se env b => rfl, fun p se env b => rfl,
    fun occ p se env b h => ?_, rfl, fun d => rfl⟩
  show (if occ = Occur.mustNot then (.ok .empty : Except Err ScorerTree)
        else p.scorerFn env b) = Weight.scorer (.prim p) env b
  rw [if_neg h]
  rfl

/-- Witness for C4 at a concrete non-`MustNot` single clause. -/
theorem c4_boolean_scorer_special_cases_witness :
    Occur.must ≠ Occur.mustNot ∧
    Weight.scorer (.boolean [(Occur.must, primLeaf2)] true) envA 1
      = Weight.scorer (.prim primLeaf2) envA 1 :=
  ⟨by decide,
    c4_boolean_scorer_special_cases.2.2.1 Occur.must primLeaf2 true envA 1 (by decide)⟩

end TantivyQE

namespace TantivyQE

/-- C5 counterexample: for a boolean weight with two `MustNot` clauses (and
no positive clause) the MustNot bucket is non-empty, yet `complex_scorer`
returns the empty scorer directly through the early `(None, None)` return
at boolean_weight.rs lines 114-116 and never wraps it in `Exclude`,
contradicting the claim that a non-empty MustNot bucket always makes the
result an `Exclude` over the positive scorer. -/
theorem c5_counterexample_pure_negative_not_wrapped :
    Weight.scorer
        (.boolean [(Occur.mustNot, primLeaf2), (Occur.mustNot, primFailExplain)] true)
        envA 1 = .ok .empty ∧
    ScorerTree.isExclude .empty = false :=
  ⟨rfl, rfl⟩

/-- C5 (amended): for a boolean weight with more than one clause whose
sub-scorers build successfully, grouping the sub-scorers by Occur: when
both a Must and a Should bucket are present the positive scorer is a
`RequiredOptionalScorer` over (Must intersection, Should union) if scoring
is enabled and the Must intersection alone if scoring is disabled; only
Must yields the Must intersection; only Should yields the Should union;
and the positive scorer is wrapped in `Exclude` with the union of the
MustNot bucket whenever that bucket is non-empty — except that with
neither a Must nor a Should bucket the result is the empty scorer returned
directly, without the `Exclude` wrap, even when MustNot clauses are
present (the early return at boolean_weight.rs lines 114-116). -/
theorem c5_complex_scorer_assembly (c1 c2 : Occur × PrimWeight)
    (rest : List (Occur × PrimWeight)) (se : Bool) (env : Env) (b : Score)
    (l : List (Occur × ScorerTree))
    (hs : subScorersList env b (c1 :: c2 :: rest) = .ok l) :
    (occBucket l .must ≠ [] → occBucket l .should ≠ [] → se = true →
      Weight.scorer (.boolean (c1 :: c2 :: rest) se) env b
        = .ok (excludeWrap (chosenComb se) (occBucket l .mustNot)
            (.reqOpt (chosenComb se) (intersect_scorers (occBucket l .must))
              (unionNE (chosenComb se) (occBucket l .should))))) ∧
    (occBucket l .must ≠ [] → occBucket l .should ≠ [] → se = false →
      Weight.scorer (.boolean (c1 :: c2 :: rest) se) env b
        = .ok (excludeWrap (chosenComb se) (occBucket l .mustNot)
            (intersect_scorers (occBucket l .must)))) ∧
    (occBucket l .must ≠ [] → occBucket l .should = [] →
      Weight.scorer (.boolean (c1 :: c2 :: rest) se) env b
        = .ok (excludeWrap (chosenComb se) (occBucket l .mustNot)
            (intersect_scorers (occBucket l .must)))) ∧
    (occBucket l .must = [] → occBucket l .should ≠ [] →
      Weight.scorer (.boolean (c1 :: c2 :: rest) se) env b
        = .ok (excludeWrap (chosenComb se) (occBucket l .mustNot)
            (unionNE (chosenComb se) (occBucket l .should)))) ∧
    (occBucket l .must = [] → occBucket l .should = [] →
      Weight.scorer (.boolean (c1 :: c2 :: rest) se) env b = .ok .empty) := by
  have hsc2 : Weight.scorer (.boolean (c1 :: c2 :: rest) se) env b
      = .ok (complexAssemble (chosenComb se) se l) := by
    rw [scorer_boolean_complex_eq, hs]
  refine ⟨?_, ?_, ?_, ?_, ?_⟩
  · intro hm hsh hse
    obtain ⟨m0, ms, hm2⟩ := List.exists_cons_of_ne_nil hm
    obtain ⟨s0, ss, hs2⟩ := List.exists_cons_of_ne_nil hsh
    rw [hsc2]
    unfold complexAssemble
    rw [hm2, hs2, scorer_union_cons]
    simp [hse, excludeWrap]
  · intro hm hsh hse
    obtain ⟨m0, ms, hm2⟩ := List.exists_cons_of_ne_nil hm
    obtain ⟨s0, ss, hs2⟩ := List.exists_cons_of_ne_nil hsh
    rw [hsc2]
    unfold complexAssemble
    rw [hm2, hs2, scorer_union_cons]
    simp [hse, excludeWrap]
  · intro hm hsh
    obtain ⟨m0, ms, hm2⟩ := List.exists_cons_of_ne_nil hm
    rw [hsc2]
    unfold complexAssemble
    rw [hm2, hsh]
    simp [excludeWrap]
  · intro hm hsh
    obtain ⟨s0, ss, hs2⟩ := List.exists_cons_of_ne_nil hsh
    rw [hsc2]
    unfold complexAssemble
    rw [hm, hs2, scorer_union_cons]
    simp [excludeWrap]
  · intro hm hsh
    rw [hsc2]
    unfold complexAssemble
    rw [hm, hsh]
    rfl

/-- Witness for C5 (amended) at a concrete Must plus Should weight. -/
theorem c5_complex_scorer_assembly_witness :
    occBucket [(Occur.must, ScorerTree.leaf [(2, 1)]),
        (Occur.should, ScorerTree.leaf [(0, 2)])] .must ≠ [] ∧
    occBucket [(Occur.must, ScorerTree.leaf [(2, 1)]),
        (Occur.should, ScorerTree.leaf [(0, 2)])] .should ≠ [] ∧
    Weight.scorer (.boolean [(Occur.must, primLeaf2), (Occur.should, primFailExplain)] true)
        envA 1
      = .ok (.reqOpt .sumWithCoords (.intersection [.leaf [(2, 1)]]) (.leaf [(0, 2)])) :=
  ⟨fun h => List.noConfusion h, fun h => List.noConfusion h,
    (c5_complex_scorer_assembly (Occur.must, primLeaf2) (Occur.should, primFailExplain)
        [] true envA 1
        [(Occur.must, ScorerTree.leaf [(2, 1)]), (Occur.should, ScorerTree.leaf [(0, 2)])]
        rfl).1
      (fun h => List.noConfusion h) (fun h => List.noConfusion h) rfl⟩

end TantivyQE

namespace TantivyQE

/-- C6: for `BooleanWeight` and `PhraseWeight`, `explain(segment, doc)`
returns the distinguished `does_not_match` condition — and never a
fabricated score — exactly when the freshly built scorer (built with boost
one, as `explain` builds it) seeked to `doc` does not land on `doc`.  In
the phrase case this includes a phrase term without postings: the built
scorer is then the empty scorer, whose seek never lands on a document, and
`explain` reports `does_not_match`.  The phrase hypotheses require a
non-empty term list (an empty phrase would panic in the source when
fetching the field of `phrase_terms[0]`) and a document id below the
`TERMINATED` sentinel. -/
theorem c6_explain_does_not_match_iff :
    (∀ (clauses : List (Occur × PrimWeight)) (se : Bool) (env : Env) (d : DocId)
      (s : ScorerTree),
      Weight.scorer (.boolean clauses se) env 1 = .ok s →
      (Weight.explain (.boolean clauses se) env d = .error (.doesNotMatch d) ↔
        ScorerTree.seek s d ≠ d)) ∧
    (∀ (terms : List (Nat × Term)) (sw : Score) (sn : Bool) (env : Env) (d : DocId)
      (s : ScorerTree), terms ≠ [] → d < TERMINATED →
      Weight.scorer (.phrase terms sw sn) env 1 = .ok s →
      (Weight.explain (.phrase terms sw sn) env d = .error (.doesNotMatch d) ↔
        ScorerTree.seek s d ≠ d)) := by
  constructor
  · intro clauses se env d s hs
    rw [explain_boolean_eq, hs]
    show (if ScorerTree.seek s d ≠ d then (.error (.doesNotMatch d) : Except Err Explanation)
          else if !se then .ok (.node descNoScoring 1 [])
          else .ok (.node descBooleanSum (ScorerTree.scoreAt env s d)
            (explainDetails env d clauses)))
        = .error (.doesNotMatch d) ↔ ScorerTree.seek s d ≠ d
    by_cases hseek : ScorerTree.seek s d = d
    · rw [if_neg (not_not_intro hseek)]
      cases se <;> simp [hseek]
    · rw [if_pos hseek]
      simp [hseek]
  · intro terms sw sn env d s hterms hd hs
    rw [scorer_phrase_eq] at hs
    rw [explain_phrase_eq]
    rcases hp : phraseScorerFn terms sw sn env 1 with e | po
    · rw [hp] at hs
      exact absurd hs (by simp)
    · rw [hp] at hs
      cases po with
      | none =>
        have hs2 : ScorerTree.empty = s := by
          have hs3 : (Except.ok ScorerTree.empty : Except Err ScorerTree) = .ok s := hs
          exact Except.ok.inj hs3
        subst hs2
        refine ⟨fun _ hdd => ?_, fun _ => rfl⟩
        have hdd2 : TERMINATED = d := hdd
        exact Nat.ne_of_gt hd hdd2
      | some ps =>
        have hs2 : ps = s := by
          have hs3 : (Except.ok ps : Except Err ScorerTree) = .ok s := hs
          exact Except.ok.inj hs3
        subst hs2
        show phraseExplainTail env sw d ps = .error (.doesNotMatch d) ↔
          ScorerTree.seek ps d ≠ d
        unfold phraseExplainTail
        by_cases hseek : ScorerTree.seek ps d = d
        · rw [if_neg (not_not_intro hseek)]
          simp [hseek]
        · rw [if_pos hseek]
          simp [hseek]

/-- Witness for C6 at concrete weights: a boolean weight whose scorer
emits only document 2, explained at document 3 (which it does not match),
and a two-term phrase whose scorer lands on document 1. -/
theorem c6_explain_does_not_match_iff_witness :
    (Weight.scorer (.boolean [(Occur.must, primLeaf2)] true) envA 1
        = .ok (.leaf [(2, 1)]) ∧
      (Weight.explain (.boolean [(Occur.must, primLeaf2)] true) envA 3
          = .error (.doesNotMatch 3) ↔ ScorerTree.seek (.leaf [(2, 1)]) 3 ≠ 3)) ∧
    (([((0 : Nat), (0 : Term)), (1, 1)] : List (Nat × Term)) ≠ [] ∧
      (1 : DocId) < TERMINATED ∧
      Weight.scorer (.phrase [(0, 0), (1, 1)] 1 true) envPhrase 1
        = .ok (.phraseScorer [(0, [(1, [0]), (2, [0])]), (1, [(1, [1]), (2, [5])])]
            (1 * 1) true) ∧
      (Weight.explain (.phrase [(0, 0), (1, 1)] 1 true) envPhrase 1
          = .error (.doesNotMatch 1) ↔
        ScorerTree.seek
            (.phraseScorer [(0, [(1, [0]), (2, [0])]), (1, [(1, [1]), (2, [5])])]
              (1 * 1) true) 1 ≠ 1)) :=
  ⟨⟨rfl, c6_explain_does_not_match_iff.1 [(Occur.must, primLeaf2)] true envA 3
      (.leaf [(2, 1)]) rfl⟩,
    ⟨fun h => List.noConfusion h, by decide, rfl,
      c6_explain_does_not_match_iff.2 [(0, 0), (1, 1)] 1 true envPhrase 1
        (.phraseScorer [(0, [(1, [0]), (2, [0])]), (1, [(1, [1]), (2, [5])])] (1 * 1) true)
        (fun h => List.noConfusion h) (by decide) rfl⟩⟩

/-- C7 counterexample: a boolean weight with a single Must clause whose
sub-weight explanation fails with an underlying data error; the boolean
scorer matches document 0, and `BooleanWeight::explain` succeeds with the
failing clause silently omitted from the itemization
(`if let Ok(child_explanation) = subweight.explain(...)`,
boolean_weight.rs lines 164-166) instead of surfacing the error. -/
theorem c7_counterexample_subexplain_error_swallowed :
    Weight.explain (.prim primFailExplain) envA 0 = .error (.dataErr 7) ∧
    Weight.explain (.boolean [(Occur.must, primFailExplain)] true) envA 0
      = .ok (.node descBooleanSum 2 []) :=
  ⟨rfl, rfl⟩

/-- C7 (amended): construction-time data errors are surfaced — an error
from building the scorer propagates out of `BooleanWeight::explain` as a
fallible result — but a failure of a sub-weight's explanation inside the
itemization loop of `BooleanWeight::explain` is silently skipped: the
failing clause contributes no detail and the loop continues. -/
theorem c7_error_propagation_amended :
    (∀ (clauses : List (Occur × PrimWeight)) (se : Bool) (env : Env) (d : DocId)
      (e : Err),
      Weight.scorer (.boolean clauses se) env 1 = .error e →
      Weight.explain (.boolean clauses se) env d = .error e) ∧
    (∀ (env : Env) (d : DocId) (occ : Occur) (p : PrimWeight)
      (rest : List (Occur × PrimWeight)) (e : Err),
      is_positive_occur occ = true → p.explainFn env d = .error e →
      explainDetails env d ((occ, p) :: rest) = explainDetails env d rest) := by
  constructor
  · intro clauses se env d e hs
    rw [explain_boolean_eq, hs]
  · intro env d occ p rest e hpos hfail
    simp [explainDetails, hpos, hfail]

/-- Witness for C7 (amended): a scorer-construction error propagates out
of `explain`, and a concrete failing sub-explanation is dropped from the
itemization. -/
theorem c7_error_propagation_amended_witness :
    (Weight.scorer (.boolean [(Occur.must, primErrScorer)] true) envA 1
        = .error (.dataErr 3) ∧
      Weight.explain (.boolean [(Occur.must, primErrScorer)] true) envA 5
        = .error (.dataErr 3)) ∧
    (is_positive_occur Occur.must = true ∧
      primFailExplain.explainFn envA 4 = .error (.dataErr 7) ∧
      explainDetails envA 4 [(Occur.must, primFailExplain)] = explainDetails envA 4 []) :=
  ⟨⟨rfl, c7_error_propagation_amended.1 [(Occur.must, primErrScorer)] true envA 5
      (.dataErr 3) rfl⟩,
    ⟨rfl, rfl,
      c7_error_propagation_amended.2 envA 4 Occur.must primFailExplain [] (.dataErr 7)
        rfl rfl⟩⟩

/-- C8: `PhraseWeight::scorer`: when some phrase term has no postings in
the segment (under the postings accessor selected by the segment's
delete status), the scorer construction succeeds with the empty scorer
rather than failing; and the construction never fails at all in this
embedding, because the underlying postings lookups are total — an error
could only arise from a failing lookup, never from "no results". -/
theorem c8_phrase_missing_term_gives_empty_scorer :
    (∀ (terms : List (Nat × Term)) (sw : Score) (sn : Bool) (env : Env) (b : Score)
      (off : Nat) (t : Term), (off, t) ∈ terms →
      (if env.hasDeletes then env.readPostings else env.readPostingsNoDeletes) t = none →
      Weight.scorer (.phrase terms sw sn) env b = .ok .empty) ∧
    (∀ (terms : List (Nat × Term)) (sw : Score) (sn : Bool) (env : Env) (b : Score),
      ∃ s : ScorerTree, Weight.scorer (.phrase terms sw sn) env b = .ok s) := by
  constructor
  · intro terms sw sn env b off t hmem hread
    rw [scorer_phrase_eq, phraseScorerFn_missing_term terms sw sn env b off t hmem hread]
  · intro terms sw sn env b
    obtain ⟨po, hpo⟩ := phraseScorerFn_isOk terms sw sn env b
    cases po with
    | none => exact ⟨.empty, by rw [scorer_phrase_eq, hpo]⟩
    | some s => exact ⟨s, by rw [scorer_phrase_eq, hpo]⟩

/-- Witness for C8: a one-term phrase over a segment without postings for
that term yields the empty scorer, and its construction succeeds. -/
theorem c8_phrase_missing_term_gives_empty_scorer_witness :
    (((0 : Nat), (7 : Term)) ∈ ([(0, 7)] : List (Nat × Term)) ∧
      (if envA.hasDeletes then envA.readPostings else envA.readPostingsNoDeletes) 7
        = none ∧
      Weight.scorer (.phrase [(0, 7)] 1 true) envA 1 = .ok .empty) ∧
    (∃ s, Weight.scorer (.phrase [(0, 7)] 1 true) envA 1 = .ok s) :=
  ⟨⟨List.mem_singleton.mpr rfl, rfl,
      c8_phrase_missing_term_gives_empty_scorer.1 [(0, 7)] 1 true envA 1 0 7
        (List.mem_singleton.mpr rfl) rfl⟩,
    c8_phrase_missing_term_gives_empty_scorer.2 [(0, 7)] 1 true envA 1⟩

/-- C9: `scorer_union` on a list of exactly one sub-scorer returns that
sub-scorer unchanged (boolean_weight.rs lines 25-27), with no `Union`
wrapper, so the resulting document sequence and scores are identical to
the sub-scorer's own. -/
theorem c9_scorer_union_single_passthrough :
    ∀ (comb : CombKind) (s : ScorerTree), scorer_union comb [s] = some s :=
  fun _ _ => rfl

/-- C10: for `BooleanWeight` and `PhraseWeight`, `explain` builds its
internal scorer with the fixed boost `1.0f32` (boolean_weight.rs line 153
and phrase_weight.rs line 101): it coincides with the boost-generalized
`explainB` evaluated at boost one, and since `explain` takes no boost
parameter its result — in particular the score it reports — is independent
of any boost the caller passed to `scorer` for the same query. -/
theorem c10_explain_uses_boost_one :
    (∀ (clauses : List (Occur × PrimWeight)) (se : Bool) (env : Env) (d : DocId),
      Weight.explain (.boolean clauses se) env d
        = Weight.explainB 1 (.boolean clauses se) env d) ∧
    (∀ (terms : List (Nat × Term)) (sw : Score) (sn : Bool) (env : Env) (d : DocId),
      Weight.explain (.phrase terms sw sn) env d
        = Weight.explainB 1 (.phrase terms sw sn) env d) :=
  ⟨fun _ _ _ _ => rfl, fun _ _ _ _ _ => rfl⟩

end TantivyQE
